import Mathlib

/-!
Verification of the Cpp-stacktrace header library.

The development shallowly embeds the functions of the single header
(print_stacktrace, posix_signal_handler, addr2line, CriticalException,
the BEGIN_EXCEPTIONS / END_EXCEPTIONS macros) as pure Lean functions.

Interaction with the outside world is made explicit:
  * the subprocess spawned by popen inside addr2line is modelled by a
    PopenResult value: either popen fails (returns NULL), or it succeeds
    and the stream of lines readable through fgets until EOF is a
    List String (each element is one fgets result, normally ending in a
    newline, exactly as fgets delivers it);
  * the backtrace captured by backtrace()/backtrace_symbols() is a
    List Frame (one entry per captured return address, carrying the %p
    rendering of the address, the library-provided symbol string, and the
    subprocess behaviour its addr2line call will observe), plus a Boolean
    telling whether backtrace_symbols returned NULL;
  * writes to std::cerr are collected in order into a List String, one
    element per diagnostic item (frame line, signal description or
    exception message);
  * process termination (exit / _Exit) is an explicit outcome constructor
    carrying the exit status and everything printed up to that point.
-/

namespace CppStacktrace

/-- EXIT_FAILURE on the target platform. -/
def EXIT_FAILURE : Nat := 1

/-- Result of the popen call inside addr2line: popen returned NULL, or it
succeeded and the subprocess wrote the given lines (in order) to the pipe;
each list element is one line as returned by fgets. -/
inductive PopenResult where
  | fail : PopenResult
  | ok : List String → PopenResult
deriving DecidableEq

/-- One captured stack frame: the %p rendering of the raw return address
(buffer[i]), the library-provided symbol string for it (strings[i] from
backtrace_symbols), and the behaviour of the subprocess that the addr2line
call for this address will observe. -/
structure Frame where
  addr : String
  sym : String
  sub : PopenResult
deriving DecidableEq

/-- Outcome of a run: either the process was terminated with the given
status after printing the given lines, or control returned normally after
printing the given lines. -/
inductive PSOutcome where
  | exited : Nat → List String → PSOutcome
  | returned : List String → PSOutcome
deriving DecidableEq

/-- The scan in addr2line that overwrites the first carriage return or
newline of outLine1 with a NUL byte: at string level it truncates the line
at its first line terminator (and leaves it unchanged when none occurs). -/
def truncAtEolChars : List Char → List Char
  | [] => []
  | c :: rest => if c = '\r' ∨ c = '\n' then [] else c :: truncAtEolChars rest

/-- String version of truncAtEolChars (the mutation of outLine1). -/
def stripEol (s : String) : String := ⟨truncAtEolChars s.data⟩

/-- The lastSlashPos computation of addr2line: the loop leaves
lastSlashPos = i + 1 for the last index i holding a slash, and 0 when the
line holds no slash. -/
def lastSlashPos : List Char → Nat
  | [] => 0
  | c :: rest =>
    if lastSlashPos rest = 0 then (if c = '/' then 1 else 0)
    else lastSlashPos rest + 1

/-- The outLine2 + lastSlashPos expression of addr2line: the suffix of the
second line starting just after its last slash. -/
def afterLastSlash (s : String) : String := ⟨s.data.drop (lastSlashPos s.data)⟩

/-- The outLine2[0] != a question mark test (on the empty string fgets can
never deliver, the C code would read the NUL terminator, which also differs
from the question mark, so false is faithful there too). -/
def headIsQm (s : String) : Bool :=
  match s.data with
  | [] => false
  | c :: _ => c = '?'

/-- One resolved-frame diagnostic line, as written by the std::cerr chain
inside addr2line; the trailing flush emits no text. The line terminator of
the location part is whatever the subprocess wrote (it is not stripped). -/
def frameLine (lineNb : Int) (addr : String) (sym : String) (loc : String) : String :=
  "[" ++ toString lineNb ++ "] " ++ (addr ++ " in " ++ sym ++ " at " ++ loc)

/-- What one addr2line call produced: its return value, the diagnostic
lines it printed, and how many times it called pclose. -/
structure A2LResult where
  ret : Nat
  printed : List String
  pcloses : Nat
deriving DecidableEq

/-- The while loop of addr2line over the stream of subprocess lines: reads
pairs of lines; a pair whose second line starts with a question mark, or a
dangling single line, closes the pipe and returns 1; EOF before any further
line closes the pipe and returns 0; every complete readable pair prints one
resolved-frame line. -/
def a2lLoop (lineNb : Int) (addr : String) : List String → A2LResult
  | [] => ⟨0, [], 1⟩
  | [_] => ⟨1, [], 1⟩
  | l1 :: l2 :: rest =>
    if headIsQm l2 then ⟨1, [], 1⟩
    else
      let r := a2lLoop lineNb addr rest
      ⟨r.ret, frameLine lineNb addr (stripEol l1) (afterLastSlash l2) :: r.printed, r.pcloses⟩

/-- The command string built by sprintf (non-Apple branch); %.256s caps the
program name at 256 characters. -/
def addr2line_cmd (program_name : String) (addr : String) : String :=
  "addr2line -C -f -e " ++ (⟨program_name.data.take 256⟩ : String) ++ " " ++ addr

/-- The addr2line function: builds the command, runs it through popen; if
popen returns NULL it returns 1 at once (no pclose); otherwise it runs the
line-reading loop, which closes the pipe on every path. -/
def addr2line (program_name : String) (addr : String) (lineNb : Int)
    (sub : PopenResult) : A2LResult :=
  let _cmd := addr2line_cmd program_name addr
  match sub with
  | .fail => ⟨1, [], 0⟩
  | .ok ls => a2lLoop lineNb addr ls

/-- The body of one iteration of the print_stacktrace loop for a frame at
display index lineNb: whatever addr2line printed, followed by the fallback
line ([lineNb] strings[i]) exactly when addr2line returned nonzero. -/
def frameOutput (program_name : String) (lineNb : Int) (f : Frame) : List String :=
  let r := addr2line program_name f.addr lineNb f.sub
  if r.ret ≠ 0 then r.printed ++ ["[" ++ toString lineNb ++ "] " ++ f.sym]
  else r.printed

/-- One unrolling of the for loop of print_stacktrace, structured on the
number of remaining iterations (fuel = nptrs - 2 - i, which decreases by
one as i increases by one): while i < nptrs - 2, the frame at position i is
displayed with index nptrs - 2 - i - 1. -/
def stForAux (program_name : String) (frames : List Frame) (nptrs : Nat) :
    Nat → Nat → List String
  | 0, _ => []
  | fuel + 1, i =>
    (match frames[i]? with
      | some f => frameOutput program_name ((nptrs : Int) - 2 - i - 1) f
      | none => []) ++ stForAux program_name frames nptrs fuel (i + 1)

/-- The for loop of print_stacktrace starting at position i: it runs
exactly nptrs - 2 - i iterations (none when i is not below nptrs - 2). -/
def stFor (program_name : String) (frames : List Frame) (nptrs : Nat) (i : Nat) :
    List String :=
  stForAux program_name frames nptrs (nptrs - 2 - i) i

/-- print_stacktrace: if backtrace_symbols returned NULL, perror and
exit(EXIT_FAILURE) before any frame line is written; otherwise start at
i = 1, or i = 2 when called from the signal handler, and run the loop. -/
def print_stacktrace (program_name : String) (calledFromSigInt : Int)
    (frames : List Frame) (symbolsNull : Bool) : PSOutcome :=
  if symbolsNull then .exited EXIT_FAILURE []
  else
    let nptrs := frames.length
    let start := if calledFromSigInt ≠ 0 then 2 else 1
    .returned (stFor program_name frames nptrs start)

/-- The signals the library dispatches on. The six named constructors are
the signals registered by set_signal_handler; other stands for any other
signal value reaching the default case of the switch. -/
inductive Signal where
  | sigabrt | sigfpe | sigill | sigint | sigsegv | sigterm | other
deriving DecidableEq

/-- The set of signals registered by set_signal_handler. -/
def set_signal_handler : List Signal :=
  [.sigabrt, .sigfpe, .sigill, .sigint, .sigsegv, .sigterm]

/-- The descriptive line printed by the switch in posix_signal_handler;
case SIGTERM falls through to default, so both print the same line. -/
def signalMessage : Signal → String
  | .sigabrt => "Caught SIGABRT: usually caused by an abort() or assert()"
  | .sigfpe => "Caught SIGFPE: arithmetic exception, such as divide by zero"
  | .sigill => "Caught SIGILL: illegal instruction"
  | .sigint => "Caught SIGINT: interactive attention signal, probably a ctrl+c"
  | .sigsegv => "Caught SIGSEGV: segfault"
  | .sigterm => "Caught SIGTERM: a termination request was sent to the program"
  | .other => "Caught SIGTERM: a termination request was sent to the program"

/-- posix_signal_handler: print_stacktrace(1), then the descriptive line
for the signal, then _Exit(EXIT_FAILURE). If the walker already exited the
process (backtrace_symbols NULL), nothing further runs. -/
def posix_signal_handler (program_name : String) (sig : Signal)
    (frames : List Frame) (symbolsNull : Bool) : PSOutcome :=
  match print_stacktrace program_name 1 frames symbolsNull with
  | .exited c out => .exited c out
  | .returned out => .exited EXIT_FAILURE (out ++ [signalMessage sig])

/-- The exception thrown by the CRITICAL macro: custom message, function
name, file name and line number of the call site. -/
structure CriticalException where
  message : String
  funcName : String
  file : String
  line : Int
deriving DecidableEq

/-- CriticalException::itos: decimal rendering through ostringstream. -/
def CriticalException.itos (i : Int) : String := toString i

/-- CriticalException::toStr. -/
def CriticalException.toStr (e : CriticalException) : String :=
  e.message ++ " (in " ++ e.funcName ++ " at " ++ e.file ++ ":"
    ++ CriticalException.itos e.line ++ ")"

/-- The catch block of END_EXCEPTIONS: streams the exception (operator<<
prints toStr) to std::cerr, then exit(EXIT_FAILURE). The pair is the
printed line and the exit status. -/
def end_exceptions (e : CriticalException) : String × Nat :=
  (e.toStr, EXIT_FAILURE)

/-- The complete CRITICAL path run to process death: print_stacktrace(0),
then the throw, caught by END_EXCEPTIONS which prints the formatted message
and exits with EXIT_FAILURE. If the walker already exited the process,
nothing further is printed. -/
def critical_invocation (program_name : String) (frames : List Frame)
    (symbolsNull : Bool) (e : CriticalException) : PSOutcome :=
  match print_stacktrace program_name 0 frames symbolsNull with
  | .exited c out => .exited c out
  | .returned out => .exited EXIT_FAILURE (out ++ [(end_exceptions e).1])

/-- Specification-side rendering of the loop: walking a list of frames
while the display index decreases by one per frame. Used to state which
frames print_stacktrace retains and with which indices. -/
def stWalk (program_name : String) (fs : List Frame) (lineNb : Int) : List String :=
  match fs with
  | [] => []
  | f :: rest => frameOutput program_name lineNb f ++ stWalk program_name rest (lineNb - 1)

/-- A subprocess interaction in which the tool behaved as addr2line
normally does for a single address: popen failed, or the stream holds one
or two lines (never zero, never more). -/
def standardSub : PopenResult → Bool
  | .fail => true
  | .ok [] => false
  | .ok [_] => true
  | .ok [_, _] => true
  | .ok (_ :: _ :: _ :: _) => false

/-- A subprocess interaction on which addr2line reports failure without
printing anything: popen failed, a single dangling line, or a first pair
whose second line carries the unresolved marker. -/
def unresolvedSub : PopenResult → Bool
  | .fail => true
  | .ok [] => false
  | .ok [_] => true
  | .ok (_ :: l2 :: _) => headIsQm l2

/-- A concrete backtrace used to exercise the amended C1 statement: four
captured frames, of which exactly one is retained (head skip 1, tail
skip 2), with a mix of popen failure, a resolvable pair and a dangling
single line among the frames. -/
def c1frames : List Frame :=
  [⟨"0x0", "s0", .fail⟩, ⟨"0x1", "s1", .ok ["f\n", "d/m.c:1\n"]⟩,
   ⟨"0x2", "s2", .ok ["x\n"]⟩, ⟨"0x3", "s3", .fail⟩]

/-- A concrete backtrace on which the single retained frame has a
subprocess that writes no output at all. -/
def c1badFrames : List Frame :=
  [⟨"0x0", "s0", .ok []⟩, ⟨"0x1", "s1", .ok []⟩,
   ⟨"0x2", "s2", .ok []⟩, ⟨"0x3", "s3", .ok []⟩]

/-- A concrete backtrace whose every retained frame has a resolution that
reports failure without printing (popen failure or unresolved marker). -/
def c9frames : List Frame :=
  [⟨"0x0", "s0", .fail⟩, ⟨"0x1", "s1", .ok ["??\n", "??:0\n"]⟩,
   ⟨"0x2", "s2", .fail⟩, ⟨"0x3", "s3", .ok ["x\n"]⟩, ⟨"0x4", "s4", .fail⟩]

/-- A concrete backtrace whose single retained frame has a subprocess that
writes no output at all, run with an empty program name. -/
def c9badFrames : List Frame :=
  [⟨"0x0", "s0", .ok []⟩, ⟨"0x1", "s1", .ok []⟩,
   ⟨"0x2", "s2", .ok []⟩, ⟨"0x3", "s3", .ok []⟩]

lemma truncAtEol_no_eol (s : List Char) :
    ∀ c ∈ truncAtEolChars s, c ≠ '\r' ∧ c ≠ '\n' := by
  induction s with
  | nil => intro c hc; simp [truncAtEolChars] at hc
  | cons a t ih =>
    intro c hc
    by_cases h : a = '\r' ∨ a = '\n'
    · simp [truncAtEolChars, h] at hc
    · rw [truncAtEolChars, if_neg h] at hc
      rcases List.mem_cons.mp hc with rfl | hm
      · push_neg at h; exact h
      · exact ih c hm

lemma truncAtEol_initial (s : List Char) : ∃ r, s = truncAtEolChars s ++ r := by
  induction s with
  | nil => exact ⟨[], rfl⟩
  | cons a t ih =>
    by_cases h : a = '\r' ∨ a = '\n'
    · exact ⟨a :: t, by simp [truncAtEolChars, h]⟩
    · obtain ⟨r, hr⟩ := ih
      refine ⟨r, ?_⟩
      rw [truncAtEolChars, if_neg h, List.cons_append, ← hr]

lemma lastSlashPos_eq_zero (s : List Char) (h : lastSlashPos s = 0) : '/' ∉ s := by
  induction s with
  | nil => simp
  | cons a t ih =>
    rw [lastSlashPos] at h
    by_cases h0 : lastSlashPos t = 0
    · rw [if_pos h0] at h
      intro hm
      rcases List.mem_cons.mp hm with h1 | h2
      · rw [if_pos h1.symm] at h; omega
      · exact ih h0 h2
    · rw [if_neg h0] at h; omega

lemma no_slash_after_lastSlashPos (s : List Char) :
    '/' ∉ s.drop (lastSlashPos s) := by
  induction s with
  | nil => simp
  | cons a t ih =>
    rw [lastSlashPos]
    by_cases h0 : lastSlashPos t = 0
    · rw [if_pos h0]
      by_cases ha : a = '/'
      · rw [if_pos ha]
        simpa using lastSlashPos_eq_zero t h0
      · rw [if_neg ha]
        intro hm
        rcases List.mem_cons.mp hm with h1 | h2
        · exact ha h1.symm
        · exact lastSlashPos_eq_zero t h0 h2
    · rw [if_neg h0]
      simpa using ih

lemma frameOutput_fail (pn : String) (k : Int) (f : Frame) (h : f.sub = .fail) :
    frameOutput pn k f = ["[" ++ toString k ++ "] " ++ f.sym] := by
  simp [frameOutput, addr2line, h]

lemma frameOutput_single (pn : String) (k : Int) (f : Frame) (l1 : String)
    (h : f.sub = .ok [l1]) :
    frameOutput pn k f = ["[" ++ toString k ++ "] " ++ f.sym] := by
  simp [frameOutput, addr2line, a2lLoop, h]

lemma frameOutput_qm (pn : String) (k : Int) (f : Frame) (l1 l2 : String)
    (rest : List String) (h : f.sub = .ok (l1 :: l2 :: rest))
    (hq : headIsQm l2 = true) :
    frameOutput pn k f = ["[" ++ toString k ++ "] " ++ f.sym] := by
  simp [frameOutput, addr2line, a2lLoop, h, hq]

lemma frameOutput_resolved (pn : String) (k : Int) (f : Frame) (l1 l2 : String)
    (h : f.sub = .ok [l1, l2]) (hq : headIsQm l2 = false) :
    frameOutput pn k f =
      ["[" ++ toString k ++ "] "
        ++ (f.addr ++ " in " ++ stripEol l1 ++ " at " ++ afterLastSlash l2)] := by
  simp [frameOutput, addr2line, a2lLoop, h, hq, frameLine]

lemma frameOutput_standard (pn : String) (k : Int) (f : Frame)
    (h : standardSub f.sub = true) :
    ∃ s, frameOutput pn k f = ["[" ++ toString k ++ "] " ++ s] := by
  rcases hsub : f.sub with _ | ls
  · exact ⟨f.sym, frameOutput_fail pn k f hsub⟩
  · rcases ls with _ | ⟨l1, _ | ⟨l2, _ | ⟨l3, rest⟩⟩⟩
    · rw [hsub] at h; simp [standardSub] at h
    · exact ⟨f.sym, frameOutput_single pn k f l1 hsub⟩
    · by_cases hq : headIsQm l2
      · exact ⟨f.sym, frameOutput_qm pn k f l1 l2 [] hsub hq⟩
      · exact ⟨f.addr ++ " in " ++ stripEol l1 ++ " at " ++ afterLastSlash l2,
          frameOutput_resolved pn k f l1 l2 hsub (by simpa using hq)⟩
    · rw [hsub] at h; simp [standardSub] at h

lemma frameOutput_unresolved (pn : String) (k : Int) (f : Frame)
    (h : unresolvedSub f.sub = true) :
    frameOutput pn k f = ["[" ++ toString k ++ "] " ++ f.sym] := by
  rcases hsub : f.sub with _ | ls
  · exact frameOutput_fail pn k f hsub
  · rcases ls with _ | ⟨l1, _ | ⟨l2, rest⟩⟩
    · rw [hsub] at h; simp [unresolvedSub] at h
    · exact frameOutput_single pn k f l1 hsub
    · refine frameOutput_qm pn k f l1 l2 rest hsub ?_
      rw [hsub] at h; simpa [unresolvedSub] using h

lemma a2lLoop_pcloses (lineNb : Int) (addr : String) :
    ∀ ls : List String, (a2lLoop lineNb addr ls).pcloses = 1
  | [] => rfl
  | [_] => rfl
  | l1 :: l2 :: rest => by
    by_cases h : headIsQm l2
    · simp [a2lLoop, h]
    · simp only [a2lLoop, if_neg h]
      exact a2lLoop_pcloses lineNb addr rest

lemma length_retained (frames : List Frame) (i : Nat) :
    ((frames.take (frames.length - 2)).drop i).length = frames.length - 2 - i := by
  simp only [List.length_drop, List.length_take]
  omega

lemma stFor_eq_stWalk (pn : String) (frames : List Frame) :
    ∀ (fuel i : Nat), frames.length - 2 - i = fuel →
      stFor pn frames frames.length i =
        stWalk pn ((frames.take (frames.length - 2)).drop i)
          ((((frames.take (frames.length - 2)).drop i).length : Int) - 1) := by
  intro fuel
  induction fuel with
  | zero =>
    intro i h
    have hlist : (frames.take (frames.length - 2)).drop i = [] := by
      apply List.eq_nil_of_length_eq_zero
      rw [length_retained]; omega
    rw [hlist, stFor, h]
    rfl
  | succ fuel ih =>
    intro i h
    have hi2 : i < (frames.take (frames.length - 2)).length := by
      simp only [List.length_take]; omega
    have hi3 : i < frames.length := by omega
    rw [List.drop_eq_getElem_cons hi2, List.getElem_take]
    rw [stFor, h, stForAux, List.getElem?_eq_getElem hi3]
    have htail : stForAux pn frames frames.length fuel (i + 1) =
        stFor pn frames frames.length (i + 1) := by
      rw [stFor]
      congr 1
      omega
    rw [htail, ih (i + 1) (by omega), stWalk]
    have hlen : ((frames.take (frames.length - 2)).drop (i + 1)).length =
        frames.length - 2 - (i + 1) := length_retained frames (i + 1)
    have hlencons :
        ((frames[i] :: (frames.take (frames.length - 2)).drop (i + 1)).length : Int)
          = (frames.length : Int) - 2 - i := by
      simp only [List.length_cons, hlen]
      omega
    rw [hlencons]
    have hidx : ((((frames.take (frames.length - 2)).drop (i + 1)).length : Int) - 1)
        = (frames.length : Int) - 2 - (i : Int) - 1 - 1 := by
      rw [hlen]; omega
    rw [hidx]

lemma stWalk_standard (pn : String) :
    ∀ (fs : List Frame) (lineNb : Int),
      (∀ f ∈ fs, standardSub f.sub = true) →
      (stWalk pn fs lineNb).length = fs.length ∧
      ∀ j (hj : j < (stWalk pn fs lineNb).length),
        ∃ s, (stWalk pn fs lineNb).get ⟨j, hj⟩ =
          "[" ++ toString (lineNb - (j : Int)) ++ "] " ++ s := by
  intro fs
  induction fs with
  | nil =>
    intro lineNb _
    refine ⟨rfl, ?_⟩
    intro j hj
    simp [stWalk] at hj
  | cons f rest ih =>
    intro lineNb h
    obtain ⟨s0, hs0⟩ := frameOutput_standard pn lineNb f (h f (by simp))
    have hrest := ih (lineNb - 1) (fun g hg => h g (by simp [hg]))
    have hw : stWalk pn (f :: rest) lineNb =
        ("[" ++ toString lineNb ++ "] " ++ s0) :: stWalk pn rest (lineNb - 1) := by
      rw [stWalk, hs0]
      rfl
    rw [hw]
    refine ⟨by simp [hrest.1], ?_⟩
    intro j hj
    cases j with
    | zero =>
      refine ⟨s0, ?_⟩
      simp only [List.get]
      norm_num
    | succ j =>
      have hj2 : j < (stWalk pn rest (lineNb - 1)).length := by
        simp only [List.length_cons] at hj
        omega
      obtain ⟨s, hs⟩ := hrest.2 j hj2
      refine ⟨s, ?_⟩
      simp only [List.get, hs]
      have : lineNb - 1 - (j : Int) = lineNb - ((j + 1 : Nat) : Int) := by
        push_cast
        ring
      rw [this]

lemma stWalk_unresolved (pn : String) :
    ∀ (fs : List Frame) (lineNb : Int),
      (∀ f ∈ fs, unresolvedSub f.sub = true) →
      (stWalk pn fs lineNb).length = fs.length ∧
      ∀ j (hj : j < (stWalk pn fs lineNb).length) (hj2 : j < fs.length),
        (stWalk pn fs lineNb).get ⟨j, hj⟩ =
          "[" ++ toString (lineNb - (j : Int)) ++ "] " ++ (fs.get ⟨j, hj2⟩).sym := by
  intro fs
  induction fs with
  | nil =>
    intro lineNb _
    refine ⟨rfl, ?_⟩
    intro j hj
    simp [stWalk] at hj
  | cons f rest ih =>
    intro lineNb h
    have hs0 := frameOutput_unresolved pn lineNb f (h f (by simp))
    have hrest := ih (lineNb - 1) (fun g hg => h g (by simp [hg]))
    have hw : stWalk pn (f :: rest) lineNb =
        ("[" ++ toString lineNb ++ "] " ++ f.sym) :: stWalk pn rest (lineNb - 1) := by
      rw [stWalk, hs0]
      rfl
    rw [hw]
    refine ⟨by simp [hrest.1], ?_⟩
    intro j hj hj2
    cases j with
    | zero =>
      simp only [List.get]
      norm_num
    | succ j =>
      have hjr : j < (stWalk pn rest (lineNb - 1)).length := by
        simp only [List.length_cons] at hj
        omega
      have hjr2 : j < rest.length := by
        simp only [List.length_cons] at hj2
        omega
      have hs := hrest.2 j hjr hjr2
      simp only [List.get, hs]
      have : lineNb - 1 - (j : Int) = lineNb - ((j + 1 : Nat) : Int) := by
        push_cast
        ring
      rw [this]

/-- C1 (amended): provided every retained frame has a standard subprocess
interaction (popen failure, or one or two lines of output), print_stacktrace
emits exactly one diagnostic line per retained frame, and the j-th printed
line carries display index D - 1 - j, so the indices run D-1, D-2, ..., 0
with no gaps or repeats, regardless of which resolutions fail. -/
theorem c1_one_line_per_retained_frame (pn : String) (calledFromSigInt : Int)
    (frames : List Frame)
    (hstd : ∀ f ∈ (frames.take (frames.length - 2)).drop
        (if calledFromSigInt ≠ 0 then 2 else 1), standardSub f.sub = true) :
    ∃ out, print_stacktrace pn calledFromSigInt frames false = .returned out ∧
      out.length = ((frames.take (frames.length - 2)).drop
        (if calledFromSigInt ≠ 0 then 2 else 1)).length ∧
      ∀ j (hj : j < out.length),
        ∃ s, out.get ⟨j, hj⟩ =
          "[" ++ toString
            ((((frames.take (frames.length - 2)).drop
              (if calledFromSigInt ≠ 0 then 2 else 1)).length : Int) - 1 - (j : Int))
            ++ "] " ++ s := by
  refine ⟨stWalk pn ((frames.take (frames.length - 2)).drop
      (if calledFromSigInt ≠ 0 then 2 else 1))
      ((((frames.take (frames.length - 2)).drop
        (if calledFromSigInt ≠ 0 then 2 else 1)).length : Int) - 1), ?_, ?_, ?_⟩
  · exact congrArg PSOutcome.returned (stFor_eq_stWalk pn frames _ _ rfl)
  · exact (stWalk_standard pn _ _ hstd).1
  · intro j hj
    obtain ⟨s, hs⟩ := (stWalk_standard pn _ _ hstd).2 j hj
    exact ⟨s, hs⟩

/-- C1 witness: the amended statement applied to a concrete backtrace. -/
theorem c1_one_line_per_retained_frame_witness :
    (∀ f ∈ (c1frames.take (c1frames.length - 2)).drop
        (if (0 : Int) ≠ 0 then 2 else 1), standardSub f.sub = true) ∧
    (∃ out, print_stacktrace "p" 0 c1frames false = .returned out ∧
      out.length = ((c1frames.take (c1frames.length - 2)).drop
        (if (0 : Int) ≠ 0 then 2 else 1)).length ∧
      ∀ j (hj : j < out.length),
        ∃ s, out.get ⟨j, hj⟩ =
          "[" ++ toString
            ((((c1frames.take (c1frames.length - 2)).drop
              (if (0 : Int) ≠ 0 then 2 else 1)).length : Int) - 1 - (j : Int))
            ++ "] " ++ s) :=
  ⟨by decide, c1_one_line_per_retained_frame "p" 0 c1frames (by decide)⟩

/-- C1 counterexample: with one retained frame whose subprocess produces no
output, print_stacktrace prints no line at all for it (addr2line returns 0
having printed nothing, so the fallback is skipped too): the printed lines
number 0 while the retained frames number 1, refuting one diagnostic line
per retained frame. -/
theorem c1_counterexample :
    print_stacktrace "p" 0 c1badFrames false = .returned [] ∧
    ((c1badFrames.take (c1badFrames.length - 2)).drop 1).length = 1 := by
  decide

/-- C2: evaluating addr2line at the divergent input. A subprocess that
produces no output at all makes addr2line return 0 (reported success,
nothing printed, pipe closed once), contradicting the claim that it
reports failure there; consequently the caller also skips the fallback
line, printing nothing for that frame. The one-line case does behave as
claimed: a dangling single line yields return value 1. -/
theorem c2_empty_output_reports_success :
    addr2line "prog" "0x1" 0 (.ok []) = ⟨0, [], 1⟩ ∧
    addr2line "prog" "0x1" 0 (.ok ["sym\n"]) = ⟨1, [], 1⟩ ∧
    frameOutput "prog" 0 ⟨"0x1", "fallback", .ok []⟩ = [] := by
  decide

/-- C3: when the second subprocess line begins with the unresolved marker,
addr2line returns 1 having printed nothing, and the caller prints for that
frame exactly the library-provided symbol string prefixed with the
bracketed display index. -/
theorem c3_unresolved_marker_fallback (pn : String) (lineNb : Int) (f : Frame)
    (l1 l2 : String) (rest : List String)
    (h1 : f.sub = .ok (l1 :: l2 :: rest)) (h2 : headIsQm l2 = true) :
    addr2line pn f.addr lineNb f.sub = ⟨1, [], 1⟩ ∧
    frameOutput pn lineNb f = ["[" ++ toString lineNb ++ "] " ++ f.sym] := by
  constructor
  · simp [addr2line, a2lLoop, h1, h2]
  · exact frameOutput_qm pn lineNb f l1 l2 rest h1 h2

/-- C3 witness: the statement applied at a concrete frame whose resolver
answers with the usual unresolved pair. -/
theorem c3_unresolved_marker_fallback_witness :
    addr2line "p" "0x1" 2 (PopenResult.ok ["??\n", "??:0\n"]) = ⟨1, [], 1⟩ ∧
    frameOutput "p" 2 ⟨"0x1", "sym", PopenResult.ok ["??\n", "??:0\n"]⟩ =
      ["[" ++ toString (2 : Int) ++ "] " ++ "sym"] :=
  c3_unresolved_marker_fallback "p" 2 ⟨"0x1", "sym", .ok ["??\n", "??:0\n"]⟩
    "??\n" "??:0\n" [] rfl (by decide)

/-- C4: the Exception Boundary prints exactly
message (in function at file:line) and exits with EXIT_FAILURE; in
particular for the README example raised in main at main.cpp:6. -/
theorem c4_critical_error_format (m f fl : String) (n : Int) :
    end_exceptions ⟨m, f, fl, n⟩ =
      (m ++ " (in " ++ f ++ " at " ++ fl ++ ":" ++ toString n ++ ")",
        EXIT_FAILURE) ∧
    end_exceptions ⟨"There has been a critical error !", "main", "main.cpp", 6⟩ =
      ("There has been a critical error ! (in main at main.cpp:6)",
        EXIT_FAILURE) :=
  ⟨rfl, by decide⟩

/-- C5: the signal handler first runs the stack walker in its signal-path
variant, then prints exactly one descriptive line matching the signal, then
terminates with EXIT_FAILURE; SIGTERM and the default case share the
termination-request message. -/
theorem c5_signal_handler_behaviour (pn : String) (sig : Signal)
    (frames : List Frame) :
    (∃ out, print_stacktrace pn 1 frames false = .returned out ∧
      posix_signal_handler pn sig frames false =
        .exited EXIT_FAILURE (out ++ [signalMessage sig])) ∧
    signalMessage .sigabrt = "Caught SIGABRT: usually caused by an abort() or assert()" ∧
    signalMessage .sigfpe = "Caught SIGFPE: arithmetic exception, such as divide by zero" ∧
    signalMessage .sigill = "Caught SIGILL: illegal instruction" ∧
    signalMessage .sigint = "Caught SIGINT: interactive attention signal, probably a ctrl+c" ∧
    signalMessage .sigsegv = "Caught SIGSEGV: segfault" ∧
    signalMessage .sigterm = "Caught SIGTERM: a termination request was sent to the program" ∧
    signalMessage .other = "Caught SIGTERM: a termination request was sent to the program" :=
  ⟨⟨stFor pn frames frames.length 2, rfl, rfl⟩, rfl, rfl, rfl, rfl, rfl, rfl, rfl⟩

/-- C6: the walker starts at frame 1 (frame 2 from the signal path) and
stops before the outermost two frames: the processed frames are exactly
the captured list with the innermost 1 (resp. 2) and the outermost 2
dropped, walked with display indices decreasing from D - 1. -/
theorem c6_frame_exclusions (pn : String) (calledFromSigInt : Int)
    (frames : List Frame) :
    print_stacktrace pn calledFromSigInt frames false =
      .returned (stWalk pn
        ((frames.take (frames.length - 2)).drop
          (if calledFromSigInt ≠ 0 then 2 else 1))
        ((((frames.take (frames.length - 2)).drop
          (if calledFromSigInt ≠ 0 then 2 else 1)).length : Int) - 1)) :=
  congrArg PSOutcome.returned (stFor_eq_stWalk pn frames _ _ rfl)

/-- C7: on a successful resolution (a pair of lines, no unresolved marker)
the printed line consists of the display index, the address, the first line
truncated at its first line terminator, and the suffix of the second line
after its last slash; the truncated symbol holds no line terminator and is
a prefix of the first line, and the displayed location holds no slash. -/
theorem c7_success_line_shape (pn addr : String) (lineNb : Int)
    (l1 l2 : String) (h : headIsQm l2 = false) :
    addr2line pn addr lineNb (.ok [l1, l2]) =
      ⟨0, ["[" ++ toString lineNb ++ "] "
        ++ (addr ++ " in " ++ stripEol l1 ++ " at " ++ afterLastSlash l2)], 1⟩ ∧
    (∀ c ∈ (stripEol l1).data, c ≠ '\r' ∧ c ≠ '\n') ∧
    (∃ r, l1.data = (stripEol l1).data ++ r) ∧
    (∀ c ∈ (afterLastSlash l2).data, c ≠ '/') ∧
    l2.data = l2.data.take (lastSlashPos l2.data) ++ (afterLastSlash l2).data := by
  refine ⟨?_, ?_, ?_, ?_, ?_⟩
  · simp [addr2line, a2lLoop, h, frameLine]
  · exact fun c hc => truncAtEol_no_eol l1.data c hc
  · exact truncAtEol_initial l1.data
  · intro c hc hceq
    exact no_slash_after_lastSlashPos l2.data (hceq ▸ hc)
  · exact (List.take_append_drop _ _).symm

/-- C7 witness: the statement applied at a concrete resolvable pair. -/
theorem c7_success_line_shape_witness :
    (headIsQm "a/b/main.cpp:6\n" = false) ∧
    (addr2line "p" "0x4" 3 (.ok ["foo\n", "a/b/main.cpp:6\n"]) =
      ⟨0, ["[" ++ toString (3 : Int) ++ "] "
        ++ ("0x4" ++ " in " ++ stripEol "foo\n" ++ " at "
          ++ afterLastSlash "a/b/main.cpp:6\n")], 1⟩ ∧
    (∀ c ∈ (stripEol "foo\n").data, c ≠ '\r' ∧ c ≠ '\n') ∧
    (∃ r, ("foo\n" : String).data = (stripEol "foo\n").data ++ r) ∧
    (∀ c ∈ (afterLastSlash "a/b/main.cpp:6\n").data, c ≠ '/') ∧
    ("a/b/main.cpp:6\n" : String).data =
      ("a/b/main.cpp:6\n" : String).data.take
        (lastSlashPos ("a/b/main.cpp:6\n" : String).data)
        ++ (afterLastSlash "a/b/main.cpp:6\n").data) :=
  ⟨by decide, c7_success_line_shape "p" "0x4" 3 "foo\n" "a/b/main.cpp:6\n" (by decide)⟩

/-- C8: whenever popen succeeded, addr2line calls pclose exactly once
before returning, on every path, success or failure. -/
theorem c8_pclose_exactly_once (pn addr : String) (lineNb : Int)
    (ls : List String) :
    (addr2line pn addr lineNb (.ok ls)).pcloses = 1 :=
  a2lLoop_pcloses lineNb addr ls

/-- C9 (amended): with an empty program identity the stack walker still
completes normally, and every retained frame whose resolution reports
failure without output (popen failure, dangling line, or unresolved
marker) prints exactly the bracketed index followed by the
library-provided symbol string; a retained frame whose subprocess writes
nothing prints nothing (see the counterexample). -/
theorem c9_empty_identity_fallback (calledFromSigInt : Int)
    (frames : List Frame)
    (hun : ∀ f ∈ (frames.take (frames.length - 2)).drop
        (if calledFromSigInt ≠ 0 then 2 else 1), unresolvedSub f.sub = true) :
    ∃ out, print_stacktrace "" calledFromSigInt frames false = .returned out ∧
      out.length = ((frames.take (frames.length - 2)).drop
        (if calledFromSigInt ≠ 0 then 2 else 1)).length ∧
      ∀ j (hj : j < out.length)
        (hj2 : j < ((frames.take (frames.length - 2)).drop
          (if calledFromSigInt ≠ 0 then 2 else 1)).length),
        out.get ⟨j, hj⟩ =
          "[" ++ toString
            ((((frames.take (frames.length - 2)).drop
              (if calledFromSigInt ≠ 0 then 2 else 1)).length : Int) - 1 - (j : Int))
            ++ "] "
          ++ (((frames.take (frames.length - 2)).drop
            (if calledFromSigInt ≠ 0 then 2 else 1)).get ⟨j, hj2⟩).sym := by
  refine ⟨stWalk "" ((frames.take (frames.length - 2)).drop
      (if calledFromSigInt ≠ 0 then 2 else 1))
      ((((frames.take (frames.length - 2)).drop
        (if calledFromSigInt ≠ 0 then 2 else 1)).length : Int) - 1), ?_, ?_, ?_⟩
  · exact congrArg PSOutcome.returned (stFor_eq_stWalk "" frames _ _ rfl)
  · exact (stWalk_unresolved "" _ _ hun).1
  · intro j hj hj2
    exact (stWalk_unresolved "" _ _ hun).2 j hj hj2

/-- C9 witness: the amended statement applied to a concrete backtrace with
an empty program name and all-failing resolutions. -/
theorem c9_empty_identity_fallback_witness :
    (∀ f ∈ (c9frames.take (c9frames.length - 2)).drop
        (if (0 : Int) ≠ 0 then 2 else 1), unresolvedSub f.sub = true) ∧
    (∃ out, print_stacktrace "" 0 c9frames false = .returned out ∧
      out.length = ((c9frames.take (c9frames.length - 2)).drop
        (if (0 : Int) ≠ 0 then 2 else 1)).length ∧
      ∀ j (hj : j < out.length)
        (hj2 : j < ((c9frames.take (c9frames.length - 2)).drop
          (if (0 : Int) ≠ 0 then 2 else 1)).length),
        out.get ⟨j, hj⟩ =
          "[" ++ toString
            ((((c9frames.take (c9frames.length - 2)).drop
              (if (0 : Int) ≠ 0 then 2 else 1)).length : Int) - 1 - (j : Int))
            ++ "] "
          ++ (((c9frames.take (c9frames.length - 2)).drop
            (if (0 : Int) ≠ 0 then 2 else 1)).get ⟨j, hj2⟩).sym) :=
  ⟨by decide, c9_empty_identity_fallback 0 c9frames (by decide)⟩

/-- C9 counterexample: with an empty program name and a retained frame
whose subprocess writes no output, the walker completes but prints nothing
for that frame (addr2line reports success, so no fallback either),
refuting index + fallback for every retained frame. -/
theorem c9_counterexample :
    print_stacktrace "" 0 c9badFrames false = .returned [] ∧
    ((c9badFrames.take (c9badFrames.length - 2)).drop 1).length = 1 := by
  decide

/-- C10: when backtrace_symbols returns NULL, print_stacktrace exits with
EXIT_FAILURE having printed no frame line; on this path neither the signal
handler nor the CRITICAL path emits any trace line, signal description or
exception message. -/
theorem c10_symbols_null_exits (pn : String) (calledFromSigInt : Int)
    (sig : Signal) (frames : List Frame) (e : CriticalException) :
    print_stacktrace pn calledFromSigInt frames true =
      .exited EXIT_FAILURE [] ∧
    posix_signal_handler pn sig frames true = .exited EXIT_FAILURE [] ∧
    critical_invocation pn frames true e = .exited EXIT_FAILURE [] :=
  ⟨rfl, rfl, rfl⟩

end CppStacktrace
